import Mathlib

/-!
Verification of the client-side orchestration core of the CareerPulse
resume-to-job-matching application (React single-page app, sources
App.tsx and services/geminiService.ts), against its natural-language
specification.

The stateful React component is shallowly embedded: each useState cell
becomes a field of an explicit state record, each handler becomes a pure
state-transition function, and each await on the Generation Gateway is
modelled by passing the outcome of the gateway call as an explicit
argument (Except Unit for calls that may throw).  Interleavings of the
single-threaded cooperative scheduler are modelled as traces of events
folded over the state.

Several built-in String operations used by the source (trim,
toLowerCase, toUpperCase, includes, startsWith, regex replacement) are
embedded as executable functions over List Char, so that every
definition evaluates by kernel reduction on concrete inputs.
-/

namespace CareerPulse

/-- Embedding of JS String.prototype.trim: strip whitespace from both
ends of the character list. -/
def trimChars (l : List Char) : List Char :=
  ((l.dropWhile Char.isWhitespace).reverse.dropWhile Char.isWhitespace).reverse

/-- Embedding of JS String.prototype.trim at the String level. -/
def strTrim (s : String) : String :=
  ⟨trimChars s.data⟩

/-- Embedding of JS String.prototype.toLowerCase (ASCII fragment). -/
def lowerChars (l : List Char) : List Char :=
  l.map Char.toLower

/-- Embedding of JS String.prototype.toUpperCase (ASCII fragment). -/
def upperChars (l : List Char) : List Char :=
  l.map Char.toUpper

/-- Embedding of JS String.prototype.includes: does the needle occur as
a contiguous sublist of the haystack?  An empty needle is always
included, as in JS. -/
def containsSubList (needle : List Char) : List Char → Bool
  | [] => needle.isEmpty
  | c :: rest => needle.isPrefixOf (c :: rest) || containsSubList needle rest

/-! Data model, from services/geminiService.ts. -/

/-- Record Job, from the interface Job in services/geminiService.ts. -/
structure Job where
  title : String
  company : String
  location : String
  postedAt : String
  link : String
  description : String
  source : String
  isEasyApply : Bool
  contactEmail : Option String
deriving DecidableEq, Repr

/-- Record ResumeAnalysis, from the interface ResumeAnalysis in
services/geminiService.ts. -/
structure ResumeAnalysis where
  skills : List String
  experienceLevel : String
  suggestedRoles : List String
  summary : String
  location : Option String
  experience : String
  education : String
  projects : String
deriving DecidableEq, Repr

/-- The four boolean toggles of the email-composition modal, from the
emailOptions state initialiser in App.tsx. -/
structure EmailOptions where
  attachTailoredResume : Bool
  attachTailoredCoverLetter : Bool
  generateMailContent : Bool
  attachUploadedResume : Bool
deriving DecidableEq, Repr

inductive TimeFilter | h24 | h48 | h72
deriving DecidableEq, Repr

inductive JobType | all | onsite | hybrid | remote
deriving DecidableEq, Repr

/-- The application state: one field per useState cell of App.tsx that
the claims touch.  The expandedJobs cell holds the JS Set of expanded
job indices, modelled as a Finset Nat. -/
structure AppState where
  resumeText : String
  isAnalyzing : Bool
  isSearching : Bool
  isGenerating : Option String
  analysis : Option ResumeAnalysis
  jobs : List Job
  expandedJobs : Finset Nat
  timeFilter : TimeFilter
  jobType : JobType
  emailOptions : EmailOptions
  isSendingMail : Bool
  error : Option String
deriving DecidableEq

/-! Generation Gateway: analyzeResume (geminiService.ts, lines 28 to 83).
The gateway round trip itself is opaque; what the core contributes is
the client-side post-filter on the skills of the parsed response. -/

/-- The client-side skill post-filter of analyzeResume
(geminiService.ts, lines 72 to 80): keep a skill only when its
lowercasing occurs as a substring of the lowercased resume text. -/
def skillFilter (resumeText : String) (skills : List String) : List String :=
  skills.filter (fun skill => containsSubList (lowerChars skill.data) (lowerChars resumeText.data))

/-- Function analyzeResume from geminiService.ts, given the analysis
object parsed from the gateway response: the skills are post-filtered,
all other fields pass through unchanged. -/
def analyzeResume (resumeText : String) (gatewayResult : ResumeAnalysis) : ResumeAnalysis :=
  { gatewayResult with skills := skillFilter resumeText gatewayResult.skills }

/-- Outcome of one gateway generateContent call returning plain text:
the call either throws, or returns a response whose text field may be
absent (none) or any string. -/
inductive GatewayTextResponse
  | threw
  | returns (text : Option String)
deriving DecidableEq, Repr

/-- Function structureResume from geminiService.ts (lines 85 to 104):
a throw propagates; otherwise the JS expression
response.text or-else rawText yields the raw text whenever the response
text is absent or empty, and the response text otherwise. -/
def structureResume (rawText : String) : GatewayTextResponse → Except Unit String
  | .threw => .error ()
  | .returns t? =>
    .ok (match t? with
         | some t => if t = "" then rawText else t
         | none => rawText)

/-- Outcome of one searchJobs gateway call as observed by its caller:
the underlying generateContent call may throw; on a response the JSON
payload either parses to a job list or fails to parse. -/
inductive SearchResponse
  | threw
  | parseFailed
  | ok (jobs : List Job)
deriving DecidableEq, Repr

/-- The result of searchJobs (geminiService.ts, lines 153 to 186) as a
fallible computation: a throw of the gateway call propagates to the
caller, but a JSON parse failure is caught inside searchJobs and
returns the empty list (lines 180 to 185). -/
def searchJobsResult : SearchResponse → Except Unit (List Job)
  | .threw => .error ()
  | .parseFailed => .ok []
  | .ok js => .ok js

/-! Job Board Controller: handleSearch (App.tsx, lines 119 to 135).
Each call is two scheduler steps: the synchronous prefix before the
await (start), and the continuation after searchJobs settles
(resolve).  Concurrent searches interleave these steps. -/

/-- The user-facing message set by the catch clause of handleSearch. -/
def searchErrorMsg : String := "Failed to fetch jobs. Please try again."

/-- One scheduler event of a handleSearch call. -/
inductive SearchEvent
  | start
  | resolve (resp : SearchResponse)
deriving DecidableEq, Repr

/-- One scheduler step of handleSearch: start runs
setIsSearching(true) and setError(null); resolve runs the continuation,
which on a returned job list runs setJobs(results) and on a throw sets
the search error, and in both cases finally clears isSearching. -/
def stepSearch (s : AppState) : SearchEvent → AppState
  | .start => { s with isSearching := true, error := none }
  | .resolve resp =>
    match searchJobsResult resp with
    | .ok results => { s with jobs := results, isSearching := false }
    | .error _ => { s with error := some searchErrorMsg, isSearching := false }

/-- A whole interleaving of handleSearch calls: fold the scheduler
steps over the state. -/
def runSearchTrace (s : AppState) (events : List SearchEvent) : AppState :=
  events.foldl stepSearch s

/-- One uninterleaved handleSearch call: its start step immediately
followed by its resolve step. -/
def handleSearch (s : AppState) (resp : SearchResponse) : AppState :=
  stepSearch (stepSearch s .start) (.resolve resp)

/-! Upload Pipeline: the onDrop callback (App.tsx, lines 66 to 107). -/

/-- The user-facing message set by the catch clause of onDrop. -/
def processErrorMsg : String :=
  "Failed to process resume. Please try a different format or a .txt file."

/-- Result of one onDrop run: the state after the try/catch/finally,
plus whether the pipeline reached the final handleSearch trigger. -/
structure DropResult where
  state : AppState
  searchTriggered : Bool
deriving DecidableEq

/-- The onDrop pipeline of App.tsx, given the raw extracted text and
the outcomes of the two gateway calls.  The guard rejects
whitespace-only text; a throw of either gateway call lands in the
catch clause, which sets the single processing error; partial state
(the structured text set before the analysis call) is retained.  The
trailing handleSearch call is recorded as a flag. -/
def onDrop (s : AppState) (rawText : String) (structResp : GatewayTextResponse)
    (analyzeResp : Except Unit ResumeAnalysis) : DropResult :=
  let s0 := { s with isAnalyzing := true, error := none }
  if trimChars rawText.data = [] then
    { state := { s0 with error := some processErrorMsg, isAnalyzing := false },
      searchTriggered := false }
  else
    match structureResume rawText structResp with
    | .error _ =>
      { state := { s0 with error := some processErrorMsg, isAnalyzing := false },
        searchTriggered := false }
    | .ok structuredText =>
      let s1 := { s0 with resumeText := structuredText }
      match analyzeResp with
      | .error _ =>
        { state := { s1 with error := some processErrorMsg, isAnalyzing := false },
          searchTriggered := false }
      | .ok gatewayResult =>
        { state :=
            { s1 with
              analysis := some (analyzeResume structuredText gatewayResult),
              isAnalyzing := false },
          searchTriggered := true }

/-! Profile Store: skill mutation (App.tsx, lines 182 to 204). -/

/-- Embedding of the JS idiom spreading a list through new Set:
de-duplication keeping the first occurrence of each element, insertion
order preserved. -/
def jsSetDedup (l : List String) : List String :=
  l.foldl (fun acc s => if s ∈ acc then acc else acc ++ [s]) []

/-- The skills part of handleAddSkill (App.tsx, lines 182 to 193): a
no-op when the trimmed input is empty, otherwise the spread of the old
skills plus the trimmed input through new Set. -/
def handleAddSkill (skills : List String) (newSkill : String) : List String :=
  if trimChars newSkill.data = [] then skills
  else jsSetDedup (skills ++ [strTrim newSkill])

/-- The skills part of handleRemoveSkill (App.tsx, lines 195 to 204):
filter out exact matches. -/
def handleRemoveSkill (skills : List String) (skillToRemove : String) : List String :=
  skills.filter (fun s => s != skillToRemove)

/-- One skill mutation of the live profile. -/
inductive SkillOp
  | add (s : String)
  | remove (s : String)
deriving DecidableEq, Repr

def applySkillOp (skills : List String) : SkillOp → List String
  | .add s => handleAddSkill skills s
  | .remove s => handleRemoveSkill skills s

def applySkillOps (skills : List String) (ops : List SkillOp) : List String :=
  ops.foldl applySkillOp skills

/-! Profile Store: undo history, undoField (App.tsx, lines 228 to 234). -/

/-- Function undoField from App.tsx, acting on the editDraft and
history cells.  The JS slice(0, -1) is List.dropLast, and
history[history.length - 2] is the element at index length - 2, which
exists because the guard requires length greater than 1. -/
def undoField (draft : ResumeAnalysis) (history : List ResumeAnalysis) :
    ResumeAnalysis × List ResumeAnalysis :=
  if h : history.length > 1 then
    (history.get ⟨history.length - 2, by omega⟩, history.dropLast)
  else
    (draft, history)

/-! Tailoring Coordinator: generation lock (App.tsx, lines 137 to 154,
the disabled attributes of the Tailor buttons at lines 664 and 681, and
handleSendMail at lines 326 to 370). -/

inductive ArtifactKind | resume | coverLetter
deriving DecidableEq, Repr

/-- The generation key set by handleGenerateTailored: the template
string of the job link and the artifact kind. -/
def generationKey (job : Job) (kind : ArtifactKind) : String :=
  job.link ++ "-" ++ (match kind with
                      | .resume => "resume"
                      | .coverLetter => "coverLetter")

/-- Clicking one of the two Tailor buttons of a job card.  Each button
carries a disabled attribute that holds whenever isGenerating is not
null, so the click reaches handleGenerateTailored only when no
generation is in flight; the handler then runs
setIsGenerating(key) as its synchronous prefix before the await. -/
def clickGenerate (s : AppState) (job : Job) (kind : ArtifactKind) : AppState :=
  if s.isGenerating = none then
    { s with isGenerating := some (generationKey job kind) }
  else s

/-- The finally clause of handleGenerateTailored: always runs
setIsGenerating(null), on success and on failure alike. -/
def finishGenerate (s : AppState) : AppState :=
  { s with isGenerating := none }

/-- Clicking the Send Mail button of the email modal.  The button is
disabled only by isSendingMail; handleSendMail neither checks nor sets
isGenerating.  The second component records whether the run issues a
generateTailoredContent gateway call, which it does exactly when either
tailored-attachment toggle is set (App.tsx, line 342). -/
def clickSendMail (s : AppState) : AppState × Bool :=
  if s.isSendingMail then (s, false)
  else ({ s with isSendingMail := true },
        s.emailOptions.attachTailoredResume || s.emailOptions.attachTailoredCoverLetter)

/-! The "Upload New" reset (App.tsx, lines 385 to 392). -/

/-- The "Upload New" button handler from the App.tsx header:
setAnalysis(null), setJobs(empty), setResumeText(empty). -/
def uploadNewReset (s : AppState) : AppState :=
  { s with analysis := none, jobs := [], resumeText := "" }

/-! Document Renderer: downloadAsPDF (App.tsx, lines 244 to 324).
Only layout (current page and vertical cursor) is tracked; font and
colour switches do not affect it, so the sub-header test inside the
default branch is not modelled (both sub-header and body advance the
cursor identically).  The text-wrapping collaborator splitTextToSize of
the PDF library is passed in as a function from the available width and
the text to the number of wrapped lines.  All vertical distances are
doubled so that the step of 5.5 per wrapped line stays in Nat: the
cursor starts at 40 (code 20), a blank line adds 8 (code 4), and the
overflow guard compares against 550 (code 275). -/

/-- The fixed keyword alternatives of the header regex. -/
def headerKeywords : List String :=
  ["EXPERIENCE", "EDUCATION", "SKILLS", "PROJECTS", "SUMMARY", "CONTACT", "WORK HISTORY"]

/-- The all-caps header test: at least three characters, every one an
ASCII capital letter or whitespace. -/
def isAllCapsChars (l : List Char) : Bool :=
  l.length ≥ 3 && l.all (fun c => (decide ('A' ≤ c) && decide (c ≤ 'Z')) || c.isWhitespace)

/-- The header test of downloadAsPDF (App.tsx, lines 266 to 268):
all-caps, or a known section keyword at line start (case-insensitive),
or a leading hash marker. -/
def isHeaderChars (l : List Char) : Bool :=
  isAllCapsChars l
    || headerKeywords.any (fun kw => kw.data.isPrefixOf (upperChars l))
    || ['#'].isPrefixOf l

/-- The bullet test of downloadAsPDF (App.tsx, line 271): the line
starts with a bullet glyph, hyphen or asterisk. -/
def isBulletChars (l : List Char) : Bool :=
  ['•'].isPrefixOf l || ['-'].isPrefixOf l || ['*'].isPrefixOf l

/-- The bullet marker strip of downloadAsPDF (App.tsx, line 289): drop
one leading marker character and the whitespace after it. -/
def stripBulletChars (l : List Char) : List Char :=
  match l with
  | c :: rest =>
    if c == '•' || c == '-' || c == '*' then rest.dropWhile Char.isWhitespace else l
  | [] => l

/-- Renderer layout state: the current page (starting at 1) and the
vertical cursor in half-units. -/
structure PDFState where
  page : Nat
  y : Nat
deriving DecidableEq, Repr

/-- One iteration of the per-line loop of downloadAsPDF.  Blank lines
only advance the cursor.  A header line adds the extra space when not
at the top, emits its text, then advances past the horizontal rule.  A
bullet line emits its wrapped text and advances.  Any other line is
body or sub-header: only here does the code check the overflow guard,
adding a page and resetting the cursor to the top margin before
emitting. -/
def processLine (split : Nat → List Char → Nat) (s : PDFState) (line : String) : PDFState :=
  let trimmedLine := trimChars line.data
  if trimmedLine = [] then
    { s with y := s.y + 8 }
  else if isHeaderChars trimmedLine then
    let y1 := if s.y > 40 then s.y + 12 else s.y
    { s with y := y1 + 4 + 10 }
  else if isBulletChars trimmedLine then
    { s with y := s.y + 11 * split 165 (stripBulletChars trimmedLine) }
  else
    let n := split 170 trimmedLine
    if s.y + 10 * n > 550 then
      { page := s.page + 1, y := 40 + 11 * n }
    else
      { s with y := s.y + 11 * n }

/-- The whole document layout: downloadAsPDF splits the content on
newlines and folds the per-line loop from a fresh first page. -/
def renderLines (split : Nat → List Char → Nat) (lines : List String) : PDFState :=
  lines.foldl (processLine split) ⟨1, 40⟩

/-! Export filenames (App.tsx, lines 142 to 146 on the direct tailoring
path and lines 342 to 359 on the email-attachment path). -/

/-- Embedding of the JS regex replacement collapsing each maximal
whitespace run to a single underscore.  The accumulator records
whether the previous character was part of a whitespace run. -/
def collapseWsAux : List Char → Bool → List Char
  | [], _ => []
  | c :: rest, prevWs =>
    if c.isWhitespace then
      if prevWs then collapseWsAux rest true
      else '_' :: collapseWsAux rest true
    else c :: collapseWsAux rest false

/-- JS company.replace of whitespace runs by underscore, at the String
level. -/
def replaceWsRuns (s : String) : String :=
  ⟨collapseWsAux s.data false⟩

/-- The tailored-resume filename of the direct path
(handleGenerateTailored, App.tsx, line 143). -/
def tailoredResumeFilename (company : String) : String :=
  "Tailored_Resume_" ++ replaceWsRuns company ++ ".pdf"

/-- The cover-letter filename of the direct path
(handleGenerateTailored, App.tsx, line 145). -/
def coverLetterFilename (company : String) : String :=
  "Cover_Letter_" ++ replaceWsRuns company ++ ".pdf"

/-- The tailored-resume filename of the email-attachment path
(handleSendMail, App.tsx, line 347): the company name is used verbatim. -/
def mailTailoredResumeFilename (company : String) : String :=
  "Tailored_Resume_" ++ company ++ ".pdf"

/-- The cover-letter filename of the email-attachment path
(handleSendMail, App.tsx, line 352): the company name is used verbatim. -/
def mailCoverLetterFilename (company : String) : String :=
  "Cover_Letter_" ++ company ++ ".pdf"

/-- Following the words of the spec, for comparison: collapse every
maximal run of non-alphanumeric characters in the company name to a
single separator character (the underscore the code uses elsewhere). -/
def specCollapseNonAlnumAux : List Char → Bool → List Char
  | [], _ => []
  | c :: rest, prevSep =>
    if c.isAlpha || c.isDigit then c :: specCollapseNonAlnumAux rest false
    else if prevSep then specCollapseNonAlnumAux rest true
    else '_' :: specCollapseNonAlnumAux rest true

/-- Following the words of the spec, for comparison: the filename the
spec describes for the tailored resume. -/
def specTailoredResumeFilename (company : String) : String :=
  "Tailored_Resume_" ++ (⟨specCollapseNonAlnumAux company.data false⟩ : String) ++ ".pdf"

/-! Concrete sample data used by witnesses and counterexamples. -/

/-- A concrete ResumeAnalysis used in witnesses. -/
def sampleAnalysis : ResumeAnalysis :=
  { skills := ["Java"], experienceLevel := "Senior", suggestedRoles := ["Engineer"],
    summary := "s", location := none, experience := "e", education := "ed", projects := "p" }

/-- A second concrete ResumeAnalysis, distinct from sampleAnalysis. -/
def sampleAnalysis2 : ResumeAnalysis :=
  { sampleAnalysis with summary := "t" }

/-- A third concrete ResumeAnalysis. -/
def sampleAnalysis3 : ResumeAnalysis :=
  { sampleAnalysis with summary := "u" }

/-- A gateway analysis object carrying a duplicated skill. -/
def gatewayDupAnalysis : ResumeAnalysis :=
  { sampleAnalysis with skills := ["Java", "Java"] }

/-- A concrete job used in witnesses. -/
def sampleJob : Job :=
  { title := "Engineer", company := "Acme", location := "NYC", postedAt := "1 hour ago",
    link := "jobs.example/1", description := "d", source := "LinkedIn",
    isEasyApply := true, contactEmail := some "hr@acme.example" }

/-- The job returned by the earlier-issued search A. -/
def jobA : Job := { sampleJob with title := "RoleA" }

/-- The job returned by the later-issued search B. -/
def jobB : Job := { sampleJob with title := "RoleB" }

/-- A concrete base application state. -/
def baseState : AppState :=
  { resumeText := "", isAnalyzing := false, isSearching := false, isGenerating := none,
    analysis := none, jobs := [], expandedJobs := ∅, timeFilter := .h24, jobType := .all,
    emailOptions := ⟨true, true, true, false⟩, isSendingMail := false, error := none }

/-- A state in which a tailoring generation for the sample job is in
flight and the email modal toggles request a tailored attachment. -/
def inFlightState : AppState :=
  { baseState with isGenerating := some (generationKey sampleJob ArtifactKind.resume) }

/-- A state holding a nonempty job list from a previous search. -/
def stateWithJobs : AppState :=
  { baseState with jobs := [sampleJob] }

/-- A state holding structured resume text from a previous upload. -/
def stateOldResume : AppState :=
  { baseState with resumeText := "old text" }

/-- The schedule of the supersession claim: search A started, then
search B started, then B resolves with its jobs, then A resolves with
its jobs. -/
def traceAB : List SearchEvent :=
  [.start, .start, .resolve (.ok [jobB]), .resolve (.ok [jobA])]

end CareerPulse

namespace CareerPulse

/-! Helper lemmas. -/

/-- A positive containsSubList test yields an explicit decomposition of
the haystack around the needle. -/
theorem containsSubList_exists {needle hay : List Char}
    (h : containsSubList needle hay = true) :
    ∃ pre post, hay = pre ++ needle ++ post := by
  induction hay with
  | nil =>
    cases needle with
    | nil => exact ⟨[], [], rfl⟩
    | cons a as => simp [containsSubList, List.isEmpty] at h
  | cons c rest ih =>
    simp only [containsSubList, Bool.or_eq_true] at h
    rcases h with h | h
    · obtain ⟨t, ht⟩ := List.isPrefixOf_iff_prefix.mp h
      exact ⟨[], t, by simp [← ht]⟩
    · obtain ⟨pre, post, hp⟩ := ih h
      exact ⟨c :: pre, post, by simp [hp]⟩

/-- The dedup fold keeps its accumulator duplicate-free. -/
theorem jsSetDedup_aux_nodup (l : List String) :
    ∀ acc : List String, acc.Nodup →
      (l.foldl (fun acc s => if s ∈ acc then acc else acc ++ [s]) acc).Nodup := by
  induction l with
  | nil => intro acc h; simpa using h
  | cons a l ih =>
    intro acc h
    simp only [List.foldl_cons]
    apply ih
    by_cases ha : a ∈ acc
    · simpa [ha] using h
    · simp [ha, List.nodup_append, h]

/-- The JS new-Set spread always produces a duplicate-free list. -/
theorem jsSetDedup_nodup (l : List String) : (jsSetDedup l).Nodup :=
  jsSetDedup_aux_nodup l [] List.nodup_nil

/-- Whitespace-run collapsing leaves no whitespace in its output. -/
theorem collapseWsAux_all_not_ws (l : List Char) :
    ∀ b, (collapseWsAux l b).all (fun c => !c.isWhitespace) = true := by
  have h2 : ('_'.isWhitespace) = false := by decide
  induction l with
  | nil => intro b; rfl
  | cons c rest ih =>
    intro b
    by_cases hc : c.isWhitespace = true
    · cases b <;> simp [collapseWsAux, hc, ih, h2]
    · simp only [Bool.not_eq_true] at hc
      simp [collapseWsAux, hc, ih]

/-! Claim C1 (generation mutual exclusion). -/

/-- C1 counterexample: with a tailoring generation in flight for the
sample job, clicking Send Mail (with a tailored-attachment toggle set)
still proceeds and issues a tailoring gateway call, leaving the
generation key untouched; the email path is not gated by the global
generation key, so the claimed global rejection fails. -/
theorem generation_lock_counterexample :
    inFlightState.isGenerating ≠ none ∧
    (clickSendMail inFlightState).2 = true ∧
    (clickSendMail inFlightState).1.isGenerating = inFlightState.isGenerating :=
  ⟨by decide, by decide, by decide⟩

/-- C1 amended: on the direct tailoring path the disabled attribute of
the Tailor buttons rejects a click as a no-op whenever a generation is
in flight; a click with no generation in flight sets the global key;
the finally clause always clears the key, after which a new click is
accepted again.  (The email-attachment path is not guarded, see the
counterexample.) -/
theorem generation_lock_amended :
    (∀ (s : AppState) (job : Job) (kind : ArtifactKind),
        s.isGenerating ≠ none → clickGenerate s job kind = s) ∧
    (∀ (s : AppState) (job : Job) (kind : ArtifactKind),
        s.isGenerating = none →
          (clickGenerate s job kind).isGenerating = some (generationKey job kind)) ∧
    (∀ s : AppState, (finishGenerate s).isGenerating = none) ∧
    (∀ (s : AppState) (job : Job) (kind : ArtifactKind),
        (clickGenerate (finishGenerate s) job kind).isGenerating
          = some (generationKey job kind)) := by
  refine ⟨?_, ?_, ?_, ?_⟩
  · intro s job kind h; simp [clickGenerate, h]
  · intro s job kind h; simp [clickGenerate, h]
  · intro s; rfl
  · intro s job kind; simp [clickGenerate, finishGenerate]

/-- Witness for the amended C1 at concrete states. -/
theorem generation_lock_amended_witness :
    (inFlightState.isGenerating ≠ none ∧
      clickGenerate inFlightState sampleJob ArtifactKind.coverLetter = inFlightState) ∧
    (baseState.isGenerating = none ∧
      (clickGenerate baseState sampleJob ArtifactKind.resume).isGenerating
        = some (generationKey sampleJob ArtifactKind.resume)) :=
  ⟨⟨by decide,
    generation_lock_amended.1 inFlightState sampleJob ArtifactKind.coverLetter (by decide)⟩,
   ⟨rfl, generation_lock_amended.2.1 baseState sampleJob ArtifactKind.resume rfl⟩⟩

/-! Claim C2 (search supersession). -/

/-- C2 counterexample: searches A then B are issued in order, B
resolves first, then A resolves; the final job list is the result of A,
not of B, because handleSearch carries no sequence tag and the last
resolution wins. -/
theorem search_supersession_counterexample :
    (runSearchTrace baseState traceAB).jobs = [jobA] ∧ jobA ≠ jobB :=
  ⟨by decide, by decide⟩

/-- C2 amended: the job list reflects the search whose response
resolves last (last-write-wins), regardless of issue order: any trace
that ends with a successful resolution carrying a given job list leaves
exactly that list in the state. -/
theorem searchTrace_lastResolvedWins (s : AppState) (pre : List SearchEvent) (js : List Job) :
    (runSearchTrace s (pre ++ [SearchEvent.resolve (SearchResponse.ok js)])).jobs = js := by
  simp only [runSearchTrace, List.foldl_append, List.foldl_cons, List.foldl_nil]
  rfl

/-! Claim C3 (renderer pagination). -/

/-- C3 counterexample: a bullet block whose projected position (cursor
600 plus one wrapped line of height 10) exceeds the safe bottom 550 is
nevertheless emitted on the same page with no reset: the overflow guard
of downloadAsPDF is only present in the body branch. -/
theorem renderer_pagination_counterexample :
    600 + 10 * 1 > 550 ∧
    (processLine (fun _ _ => 1) ⟨1, 600⟩ "• x").page = 1 ∧
    (processLine (fun _ _ => 1) ⟨1, 600⟩ "• x").y = 611 :=
  ⟨by norm_num, by decide, by decide⟩

/-- C3 amended: the pagination guard applies exactly to the
body/sub-header branch: for a nonblank line that is neither header nor
bullet, overflow of the projected position starts a new page and resets
the cursor to the top margin before the block is emitted, while header
and bullet blocks never start a new page. -/
theorem renderer_pagination_amended :
    (∀ (split : Nat → List Char → Nat) (s : PDFState) (line : String),
        trimChars line.data ≠ [] →
        isHeaderChars (trimChars line.data) = false →
        isBulletChars (trimChars line.data) = false →
        s.y + 10 * split 170 (trimChars line.data) > 550 →
        (processLine split s line).page = s.page + 1 ∧
        (processLine split s line).y = 40 + 11 * split 170 (trimChars line.data)) ∧
    (∀ (split : Nat → List Char → Nat) (s : PDFState) (line : String),
        isHeaderChars (trimChars line.data) = true ∨
          isBulletChars (trimChars line.data) = true →
        (processLine split s line).page = s.page) := by
  constructor
  · intro split s line hne hh hb hover
    simp [processLine, hne, hh, hb, hover]
  · intro split s line h
    rcases h with h | h
    · have hne : trimChars line.data ≠ [] := by
        intro hnil; rw [hnil] at h; exact absurd h (by decide)
      simp [processLine, hne, h]
    · by_cases hh : isHeaderChars (trimChars line.data) = true
      · have hne : trimChars line.data ≠ [] := by
          intro hnil; rw [hnil] at hh; exact absurd hh (by decide)
        simp [processLine, hne, hh]
      · have hne : trimChars line.data ≠ [] := by
          intro hnil; rw [hnil] at h; exact absurd h (by decide)
        simp only [Bool.not_eq_true] at hh
        simp [processLine, hne, hh, h]

/-- Witness for the amended C3: a concrete overflowing body line is
moved to a fresh page, and a concrete header line at an overflowing
position stays on its page. -/
theorem renderer_pagination_amended_witness :
    (isHeaderChars (trimChars ("Some body text").data) = false ∧
      isBulletChars (trimChars ("Some body text").data) = false ∧
      (processLine (fun _ _ => 20) ⟨1, 400⟩ "Some body text").page = 2 ∧
      (processLine (fun _ _ => 20) ⟨1, 400⟩ "Some body text").y = 260) ∧
    (isHeaderChars (trimChars ("EXPERIENCE").data) = true ∧
      (processLine (fun _ _ => 1) ⟨1, 600⟩ "EXPERIENCE").page = 1) := by
  refine ⟨⟨by decide, by decide, ?_, ?_⟩, by decide, ?_⟩
  · exact (renderer_pagination_amended.1 (fun _ _ => 20) ⟨1, 400⟩ "Some body text"
      (by decide) (by decide) (by decide) (by decide)).1
  · exact (renderer_pagination_amended.1 (fun _ _ => 20) ⟨1, 400⟩ "Some body text"
      (by decide) (by decide) (by decide) (by decide)).2
  · exact renderer_pagination_amended.2 (fun _ _ => 1) ⟨1, 600⟩ "EXPERIENCE"
      (Or.inl (by decide))

/-! Claim C4 (skill verbatim invariant). -/

/-- C4: every skill of an analysis produced by analyzeResume is a
case-insensitive substring of the resume text it was produced from,
whatever skill list the gateway returned: the client-side post-filter
guarantees an explicit decomposition of the lowercased text around the
lowercased skill. -/
theorem analyzeResume_skills_verbatim (resumeText : String) (gatewayResult : ResumeAnalysis)
    (skill : String) (h : skill ∈ (analyzeResume resumeText gatewayResult).skills) :
    ∃ pre post, lowerChars resumeText.data = pre ++ lowerChars skill.data ++ post := by
  have hm : skill ∈ gatewayResult.skills ∧
      containsSubList (lowerChars skill.data) (lowerChars resumeText.data) = true := by
    simpa [analyzeResume, skillFilter] using h
  exact containsSubList_exists hm.2

/-- Witness for C4: the kept skill Java of a concrete analysis occurs
in the concrete resume text. -/
theorem analyzeResume_skills_verbatim_witness :
    "Java" ∈ (analyzeResume "I know Java" { sampleAnalysis with skills := ["Java", "C++"] }).skills ∧
    ∃ pre post, lowerChars ("I know Java").data = pre ++ lowerChars ("Java").data ++ post :=
  ⟨by decide,
   analyzeResume_skills_verbatim "I know Java"
     { sampleAnalysis with skills := ["Java", "C++"] } "Java" (by decide)⟩

/-! Claim C5 (skill set uniqueness). -/

/-- C5 counterexample: a freshly created analysis is not de-duplicated:
when the gateway returns the same verbatim skill twice, both copies
pass the substring post-filter and the fresh skills list has a
duplicate. -/
theorem fresh_analysis_dup_counterexample :
    ¬ (analyzeResume "I know Java" gatewayDupAnalysis).skills.Nodup := by
  decide

/-- C5 amended: the live profile list stays duplicate-free under any
sequence of addSkill and removeSkill calls once it is duplicate-free,
and any effective addSkill (nonblank input) de-duplicates the whole
list; only a freshly created analysis may carry duplicates handed back
by the gateway. -/
theorem skills_nodup_amended :
    (∀ (skills : List String) (ops : List SkillOp),
        skills.Nodup → (applySkillOps skills ops).Nodup) ∧
    (∀ (skills : List String) (s : String),
        trimChars s.data ≠ [] → (handleAddSkill skills s).Nodup) := by
  constructor
  · intro skills ops
    induction ops generalizing skills with
    | nil => intro h; simpa [applySkillOps] using h
    | cons op ops ih =>
      intro h
      have hstep : (applySkillOp skills op).Nodup := by
        cases op with
        | add s =>
          by_cases hs : trimChars s.data = []
          · simpa [applySkillOp, handleAddSkill, hs] using h
          · simp [applySkillOp, handleAddSkill, hs, jsSetDedup_nodup]
        | remove s => exact h.filter _
      show (applySkillOps (applySkillOp skills op) ops).Nodup
      exact ih _ hstep
  · intro skills s hs
    simp [handleAddSkill, hs, jsSetDedup_nodup]

/-- Witness for the amended C5 on a concrete operation sequence and a
concrete duplicated starting list. -/
theorem skills_nodup_amended_witness :
    (["Java"].Nodup ∧
      (applySkillOps ["Java"] [SkillOp.add " Coq ", SkillOp.remove "Java"]).Nodup) ∧
    (trimChars (" Coq ").data ≠ [] ∧ (handleAddSkill ["Java", "Java"] " Coq ").Nodup) :=
  ⟨⟨by decide,
    skills_nodup_amended.1 ["Java"] [SkillOp.add " Coq ", SkillOp.remove "Java"] (by decide)⟩,
   ⟨by decide, skills_nodup_amended.2 ["Java", "Java"] " Coq " (by decide)⟩⟩

/-! Claim C6 (failed search leaves the list). -/

/-- C6 counterexample: when the search response fails to parse,
searchJobs swallows the failure and returns the empty list, so the
previous job list is replaced by an empty one and no user-facing error
is set. -/
theorem search_failure_counterexample :
    stateWithJobs.jobs ≠ [] ∧
    (handleSearch stateWithJobs SearchResponse.parseFailed).jobs = [] ∧
    (handleSearch stateWithJobs SearchResponse.parseFailed).error = none :=
  ⟨by decide, by decide, by decide⟩

/-- C6 amended: when the searchJobs gateway call throws, handleSearch
sets the user-facing search error and leaves the previous job list in
place; but when the response is unparseable, searchJobs returns the
empty list, which replaces the job list with no error set. -/
theorem handleSearch_failure_amended (s : AppState) :
    ((handleSearch s SearchResponse.threw).error = some searchErrorMsg ∧
      (handleSearch s SearchResponse.threw).jobs = s.jobs) ∧
    ((handleSearch s SearchResponse.parseFailed).jobs = [] ∧
      (handleSearch s SearchResponse.parseFailed).error = none) :=
  ⟨⟨rfl, rfl⟩, rfl, rfl⟩

/-! Claim C7 (structuring fallback). -/

/-- C7 counterexample: when the structuring gateway call throws, the
pipeline does not fall back to the raw text: the catch clause sets the
user-facing processing error, the canonical resume text keeps its old
value, and the analysis stage is never reached. -/
theorem structuring_fallback_counterexample :
    (onDrop stateOldResume "raw resume" GatewayTextResponse.threw
        (Except.ok sampleAnalysis)).state.error = some processErrorMsg ∧
    (onDrop stateOldResume "raw resume" GatewayTextResponse.threw
        (Except.ok sampleAnalysis)).searchTriggered = false ∧
    (onDrop stateOldResume "raw resume" GatewayTextResponse.threw
        (Except.ok sampleAnalysis)).state.resumeText = "old text" :=
  ⟨by decide, by decide, by decide⟩

/-- C7 amended: the raw-text fallback happens exactly when the
structuring call returns with an absent or empty text: then the
canonical resume text is the raw text unchanged, no error is surfaced
and the pipeline reaches analysis and the final search trigger; a
structuring call that throws aborts the pipeline with the generic
processing error instead. -/
theorem onDrop_structuring_amended (s : AppState) (rawText : String) (r : ResumeAnalysis)
    (t? : Option String) (hraw : trimChars rawText.data ≠ [])
    (hempty : t? = none ∨ t? = some "") :
    ((onDrop s rawText (GatewayTextResponse.returns t?) (Except.ok r)).state.resumeText
        = rawText ∧
      (onDrop s rawText (GatewayTextResponse.returns t?) (Except.ok r)).state.error = none ∧
      (onDrop s rawText (GatewayTextResponse.returns t?) (Except.ok r)).searchTriggered
        = true) ∧
    ((onDrop s rawText GatewayTextResponse.threw (Except.ok r)).state.error
        = some processErrorMsg ∧
      (onDrop s rawText GatewayTextResponse.threw (Except.ok r)).searchTriggered = false) := by
  constructor
  · rcases hempty with h | h <;> subst h <;> simp [onDrop, structureResume, hraw]
  · simp [onDrop, structureResume, hraw]

/-- Witness for the amended C7 at a concrete state and raw text. -/
theorem onDrop_structuring_amended_witness :
    trimChars ("raw resume").data ≠ [] ∧
    (((onDrop baseState "raw resume" (GatewayTextResponse.returns none)
          (Except.ok sampleAnalysis)).state.resumeText = "raw resume" ∧
      (onDrop baseState "raw resume" (GatewayTextResponse.returns none)
          (Except.ok sampleAnalysis)).state.error = none ∧
      (onDrop baseState "raw resume" (GatewayTextResponse.returns none)
          (Except.ok sampleAnalysis)).searchTriggered = true) ∧
    ((onDrop baseState "raw resume" GatewayTextResponse.threw
          (Except.ok sampleAnalysis)).state.error = some processErrorMsg ∧
      (onDrop baseState "raw resume" GatewayTextResponse.threw
          (Except.ok sampleAnalysis)).searchTriggered = false)) :=
  ⟨by decide,
   onDrop_structuring_amended baseState "raw resume" sampleAnalysis none
     (by decide) (Or.inl rfl)⟩

/-! Claim C8 (undo bounds). -/

/-- C8: calling undo on a history of length exactly 1 leaves the draft
and the history unchanged; calling it once on a history of length
N greater than 1 sets the live draft to entry N-1 (1-indexed, that is
index N-2) and reduces the history length to N-1. -/
theorem undoField_spec (draft : ResumeAnalysis) (history : List ResumeAnalysis) :
    (history.length = 1 → undoField draft history = (draft, history)) ∧
    (∀ h : history.length > 1,
      (undoField draft history).1 = history.get ⟨history.length - 2, by omega⟩ ∧
      (undoField draft history).2.length = history.length - 1) := by
  constructor
  · intro h1
    simp [undoField, h1]
  · intro h
    simp [undoField, h]

/-- Witness for C8 on a concrete draft and histories of length 1 and 3. -/
theorem undoField_spec_witness :
    ([sampleAnalysis2].length = 1 ∧
      undoField sampleAnalysis [sampleAnalysis2] = (sampleAnalysis, [sampleAnalysis2])) ∧
    ((undoField sampleAnalysis [sampleAnalysis, sampleAnalysis2, sampleAnalysis3]).1
        = sampleAnalysis2 ∧
      (undoField sampleAnalysis
        [sampleAnalysis, sampleAnalysis2, sampleAnalysis3]).2.length = 2) := by
  refine ⟨⟨rfl, (undoField_spec sampleAnalysis [sampleAnalysis2]).1 rfl⟩, ?_, ?_⟩
  · exact ((undoField_spec sampleAnalysis
      [sampleAnalysis, sampleAnalysis2, sampleAnalysis3]).2 (by decide)).1
  · exact ((undoField_spec sampleAnalysis
      [sampleAnalysis, sampleAnalysis2, sampleAnalysis3]).2 (by decide)).2

/-! Claim C9 (export filenames). -/

/-- C9 counterexample: on the direct tailoring path only whitespace
runs of the company name are collapsed, so the comma of a concrete
company name survives into the filename, and on the email-attachment
path the company name is used verbatim, spaces included; both disagree
with the filename the spec describes (every non-alphanumeric run
collapsed to a single separator). -/
theorem filename_counterexample :
    tailoredResumeFilename "Acme, Inc." ≠ specTailoredResumeFilename "Acme, Inc." ∧
    mailTailoredResumeFilename "Acme Inc" ≠ specTailoredResumeFilename "Acme Inc" :=
  ⟨by decide, by decide⟩

/-- C9 amended: on the direct tailoring path the filename is the
artifact label followed by the company name with every whitespace run
(only) collapsed to a single underscore, so it contains no whitespace
but may keep other non-alphanumeric characters; on the
email-attachment path the filename uses the company name verbatim,
with no collapsing at all. -/
theorem filenames_amended (company : String) :
    (tailoredResumeFilename company).data.all (fun c => !c.isWhitespace) = true ∧
    (coverLetterFilename company).data.all (fun c => !c.isWhitespace) = true ∧
    mailTailoredResumeFilename company = "Tailored_Resume_" ++ company ++ ".pdf" ∧
    mailCoverLetterFilename company = "Cover_Letter_" ++ company ++ ".pdf" := by
  have hmain : ∀ pre post : String,
      pre.data.all (fun c => !c.isWhitespace) = true →
      post.data.all (fun c => !c.isWhitespace) = true →
      (pre ++ replaceWsRuns company ++ post).data.all (fun c => !c.isWhitespace) = true := by
    intro pre post hpre hpost
    simp [String.data_append, List.all_append, hpre, hpost, replaceWsRuns,
      collapseWsAux_all_not_ws]
  exact ⟨hmain "Tailored_Resume_" ".pdf" (by decide) (by decide),
    hmain "Cover_Letter_" ".pdf" (by decide) (by decide), rfl, rfl⟩

/-! Claim C10 (reset frame). -/

/-- C10: the explicit "Upload New" reset clears exactly the analysis,
the job list and the canonical resume text; the time filter, the
job-type filter, the email options and the per-job expansion state keep
their previous values. -/
theorem uploadNewReset_frame (s : AppState) :
    (uploadNewReset s).analysis = none ∧
    (uploadNewReset s).jobs = [] ∧
    (uploadNewReset s).resumeText = "" ∧
    (uploadNewReset s).timeFilter = s.timeFilter ∧
    (uploadNewReset s).jobType = s.jobType ∧
    (uploadNewReset s).emailOptions = s.emailOptions ∧
    (uploadNewReset s).expandedJobs = s.expandedJobs := by
  simp [uploadNewReset]

end CareerPulse
